import Mathlib

/-!
Shallow embedding of the organization deprovisioning serverless function
(the `serve` handler of the repository's edge function source).

Every interaction with an external collaborator (identity provider,
relational data store) is represented by an oracle field of `Env` holding
the outcome that collaborator would return, and the handler additionally
produces a trace of the operations it issues, so that ordering and
call-count properties can be stated and proved.
-/

namespace Deprovision

/-- Row of the `organizations` table as selected in step 5 (`id, name`). -/
structure OrgRow where
  id : String
  name : String
deriving DecidableEq, Repr

/-- Row of the `user_profiles` table as selected in step 6 (`user_id`);
the column may be null in the store, hence `Option`. -/
structure ProfileRow where
  uid : Option String
deriving DecidableEq, Repr

/-- The operations the handler issues against external collaborators,
recorded in the order the source awaits them. -/
inductive Op where
  | getUser
  | queryUserRole
  | readBody
  | constructAdminClient
  | queryOrganization
  | queryLinkedUsers
  | deleteAuthUser (uid : String)
  | deleteOrganization (oid : String)
deriving DecidableEq, Repr

/-- The throw sites of the source, one constructor per `throw`. -/
inductive Err where
  | unauthorizedNoUser
  | unauthorizedNotSuperAdmin
  | invalidRequestBody
  | organizationIdRequired
  | serviceRoleKeyMissing
  | databaseErrorFetchingOrg (m : String)
  | organizationNotFound
  | deleteOrgFailed (m : String)
deriving DecidableEq, Repr

/-- The exact `error.message` string each throw site produces. -/
def Err.message : Err → String
  | .unauthorizedNoUser => "Unauthorized"
  | .unauthorizedNotSuperAdmin => "Unauthorized: Only Super Admins can perform this action"
  | .invalidRequestBody => "Invalid request body"
  | .organizationIdRequired => "Organization ID is required"
  | .serviceRoleKeyMissing => "Server misconfiguration: Service Role Key is missing"
  | .databaseErrorFetchingOrg m => "Database Error: " ++ m
  | .organizationNotFound => "Organization not found"
  | .deleteOrgFailed m => m

/-- The error taxonomy of the specification. -/
inductive ErrKind where
  | Unauthorized
  | InvalidRequest
  | Misconfiguration
  | NotFound
  | DeletionFailed
deriving DecidableEq, Repr

/-- Refinement map from the source's throw sites onto the specification's
error taxonomy (spec section 7 names the five kinds; spec step 5 maps both
organization-lookup outcomes to `NotFound`). -/
def specKind : Err → ErrKind
  | .unauthorizedNoUser => .Unauthorized
  | .unauthorizedNotSuperAdmin => .Unauthorized
  | .invalidRequestBody => .InvalidRequest
  | .organizationIdRequired => .InvalidRequest
  | .serviceRoleKeyMissing => .Misconfiguration
  | .databaseErrorFetchingOrg _ => .NotFound
  | .organizationNotFound => .NotFound
  | .deleteOrgFailed _ => .DeletionFailed

/-- JS truthiness of an optional string: `undefined`/`null` and the empty
string are falsy, as in the source's `if (!organizationId)` and
`if (!serviceRoleKey)` checks. -/
def falsy : Option String → Bool
  | none => true
  | some s => s = ""

/-- The role gate of the source: `profile?.role !== 'super_admin'` passes
only when a profile row exists and its role column equals `super_admin`.
The outer `Option` is the row, the inner the nullable role column. -/
def roleIsSuperAdmin : Option (Option String) → Bool
  | some (some r) => r = "super_admin"
  | _ => false

/-- Oracle environment: the outcome each external call would return.
`deleteUserResult` gives the per-account outcome of the privileged
account-deletion call; its errors are only logged by the source. -/
structure Env where
  method : String
  userId : Option String
  profile : Option (Option String)
  bodyResult : Except Unit (Option String)
  serviceRoleKey : Option String
  orgData : Option OrgRow
  orgError : Option String
  linkedUsers : Option (List ProfileRow)
  usersError : Option String
  deleteUserResult : String → Option String
  deleteOrgError : Option String

/-- Account purge loop of step 7: one deletion call per enumerated row
whose `user_id` is truthy (non-null and non-empty). -/
def deleteOpsFor (us : List ProfileRow) : List Op :=
  us.filterMap fun u =>
    match u.uid with
    | some s => if s = "" then none else some (Op.deleteAuthUser s)
    | none => none

/-- The operations issued by steps 6-7 given the outcome of the linked-user
query: when the query returned no data (`users` null) the loop is skipped,
otherwise it runs when `users.length > 0`. -/
def purgeOpsOf : Option (List ProfileRow) → List Op
  | some us => if 0 < us.length then deleteOpsFor us else []
  | none => []

/-- The body of the source's `try` block: the linear pipeline of steps 1-9,
returning either the thrown error or success, together with the trace of
issued operations. -/
def runSteps (e : Env) : Except Err Unit × List Op :=
  let ops := [Op.getUser]
  match e.userId with
  | none => (Except.error Err.unauthorizedNoUser, ops)
  | some _ =>
    let ops := ops ++ [Op.queryUserRole]
    if roleIsSuperAdmin e.profile = false then
      (Except.error Err.unauthorizedNotSuperAdmin, ops)
    else
      let ops := ops ++ [Op.readBody]
      match e.bodyResult with
      | Except.error _ => (Except.error Err.invalidRequestBody, ops)
      | Except.ok organizationId =>
        match organizationId with
        | none => (Except.error Err.organizationIdRequired, ops)
        | some oid =>
          if oid = "" then (Except.error Err.organizationIdRequired, ops)
          else if falsy e.serviceRoleKey then
            (Except.error Err.serviceRoleKeyMissing, ops)
          else
            let ops := ops ++ [Op.constructAdminClient, Op.queryOrganization]
            match e.orgError with
            | some m => (Except.error (Err.databaseErrorFetchingOrg m), ops)
            | none =>
              match e.orgData with
              | none => (Except.error Err.organizationNotFound, ops)
              | some _ =>
                let ops := ops ++ [Op.queryLinkedUsers]
                let ops := ops ++ purgeOpsOf e.linkedUsers ++ [Op.deleteOrganization oid]
                match e.deleteOrgError with
                | some m => (Except.error (Err.deleteOrgFailed m), ops)
                | none => (Except.ok (), ops)

/-- Response bodies the source constructs. -/
inductive Body where
  | text (s : String)
  | jsonMessage (message : String)
  | jsonError (error : String) (details : String)
deriving DecidableEq, Repr

/-- HTTP response: status code and body. -/
structure HttpResponse where
  status : Nat
  body : Body
deriving DecidableEq, Repr

/-- The success message of the 200 response. -/
def successMessage : String := "Organization and associated accounts deleted successfully"

/-- The constant `details` field of every failure envelope. -/
def errorDetails : String := "Check Supabase Function Logs for more info"

/-- The whole handler: the CORS preflight branch, the `try` body, and the
`catch` block mapping any thrown error to the uniform 400 envelope. -/
def handle (e : Env) : HttpResponse × List Op :=
  if e.method = "OPTIONS" then
    ({ status := 200, body := Body.text "ok" }, [])
  else
    match runSteps e with
    | (Except.ok _, ops) =>
        ({ status := 200, body := Body.jsonMessage successMessage }, ops)
    | (Except.error err, ops) =>
        ({ status := 400, body := Body.jsonError err.message errorDetails }, ops)

/-! ### Store semantics

A concrete semantics for the relational store and identity provider, used
for the double-invocation property: the oracle outcomes are computed from
a store value, and the issued operations are applied back to the store. -/

/-- A profile row as persisted: the identity account it references and the
organization it is linked to. -/
structure StoredProfile where
  uid : Option String
  currentOrganizationId : Option String
deriving DecidableEq, Repr

/-- State of the external collaborators: the `organizations` table, the
`user_profiles` table, and the identity provider's account set. -/
structure Store where
  orgs : List OrgRow
  profiles : List StoredProfile
  authUsers : List String
deriving Repr

/-- Request-scoped context: everything about the invocation that does not
come from the store the privileged client reads. -/
structure Caller where
  method : String
  userId : Option String
  role : Option (Option String)
  bodyResult : Except Unit (Option String)
  serviceRoleKey : Option String

/-- `.single()` semantics: exactly one row yields data, any other row
count yields an error and no data. -/
def singleOf (rows : List OrgRow) : Option OrgRow × Option String :=
  match rows with
  | [r] => (some r, none)
  | _ => (none, some "JSON object requested, multiple (or no) rows returned")

/-- The oracle environment a given store induces for a given caller. -/
def storeEnv (c : Caller) (s : Store) : Env :=
  let oid := match c.bodyResult with
    | Except.ok (some x) => x
    | _ => ""
  let found := singleOf (s.orgs.filter fun o => o.id = oid)
  { method := c.method
    userId := c.userId
    profile := c.role
    bodyResult := c.bodyResult
    serviceRoleKey := c.serviceRoleKey
    orgData := found.1
    orgError := found.2
    linkedUsers := some ((s.profiles.filter
      fun p => p.currentOrganizationId = some oid).map fun p => ⟨p.uid⟩)
    usersError := none
    deleteUserResult := fun uid =>
      if s.authUsers.contains uid then none else some "User not found"
    deleteOrgError := none }

/-- Effect of one issued operation on the store: account deletion removes
the identity account, organization deletion removes every matching row;
reads leave the store unchanged. -/
def applyOp (s : Store) : Op → Store
  | Op.deleteAuthUser uid => { s with authUsers := s.authUsers.filter (· ≠ uid) }
  | Op.deleteOrganization oid => { s with orgs := s.orgs.filter fun o => o.id ≠ oid }
  | _ => s

/-- Apply a trace of operations in order. -/
def applyOps (s : Store) (ops : List Op) : Store := ops.foldl applyOp s

/-- Run one invocation against a store: compute the oracles from the
store, run the handler, apply the issued operations. -/
def runOnStore (c : Caller) (s : Store) : HttpResponse × Store :=
  let r := handle (storeEnv c s)
  (r.1, applyOps s r.2)

/-! ### Helper lemmas -/

/-- The `users.length > 0` guard of step 7 is redundant: on an empty list
the purge loop issues no operation either way. -/
theorem purge_guard_eq (us : List ProfileRow) :
    (if 0 < us.length then deleteOpsFor us else []) = deleteOpsFor us := by
  cases us <;> simp [deleteOpsFor]

/-- Shape of a run that passes every fail-fast check: result decided by the
final organization delete, trace fixed and independent of per-account
outcomes. -/
theorem runSteps_ok (e : Env) (uid oid k : String) (org : OrgRow)
    (hu : e.userId = some uid) (hp : e.profile = some (some "super_admin"))
    (hb : e.bodyResult = Except.ok (some oid)) (hoid : oid ≠ "")
    (hk : e.serviceRoleKey = some k) (hkne : k ≠ "")
    (ho : e.orgData = some org) (hoe : e.orgError = none) :
    runSteps e = ((match e.deleteOrgError with
        | some m => Except.error (Err.deleteOrgFailed m)
        | none => Except.ok ()),
      [Op.getUser, Op.queryUserRole, Op.readBody, Op.constructAdminClient,
       Op.queryOrganization, Op.queryLinkedUsers]
        ++ purgeOpsOf e.linkedUsers ++ [Op.deleteOrganization oid]) := by
  simp only [runSteps, hu, hp, hb, hk, ho, hoe, roleIsSuperAdmin, falsy]
  cases e.deleteOrgError <;> simp [hoid, hkne]

/-- Any thrown error is mapped by the catch block to the uniform 400
envelope, preserving the trace. -/
theorem handle_error_eq (e : Env) (err : Err) (ops : List Op)
    (hm : e.method ≠ "OPTIONS") (h : runSteps e = (Except.error err, ops)) :
    handle e = ({ status := 400, body := Body.jsonError err.message errorDetails }, ops) := by
  unfold handle
  rw [if_neg hm, h]

/-- A successful run is mapped to the 200 success envelope, preserving the
trace. -/
theorem handle_ok_eq (e : Env) (ops : List Op)
    (hm : e.method ≠ "OPTIONS") (h : runSteps e = (Except.ok (), ops)) :
    handle e = ({ status := 200, body := Body.jsonMessage successMessage }, ops) := by
  unfold handle
  rw [if_neg hm, h]

/-- When every enumerated profile carries a truthy account id, the purge
loop issues exactly one deletion per profile. -/
theorem deleteOpsFor_length (us : List ProfileRow)
    (hall : ∀ u ∈ us, ∃ s, u.uid = some s ∧ s ≠ "") :
    (deleteOpsFor us).length = us.length := by
  induction us with
  | nil => rfl
  | cons u rest ih =>
    obtain ⟨s, hs, hne⟩ := hall u (by simp)
    have hrest := ih fun v hv => hall v (by simp [hv])
    simp [deleteOpsFor, List.filterMap_cons, hs, hne] at hrest ⊢
    exact hrest

/-- Every enumerated profile with a truthy account id gets a deletion
call. -/
theorem deleteOpsFor_mem (us : List ProfileRow) (u : ProfileRow) (hu : u ∈ us)
    (s : String) (hs : u.uid = some s) (hne : s ≠ "") :
    Op.deleteAuthUser s ∈ deleteOpsFor us := by
  simp only [deleteOpsFor, List.mem_filterMap]
  exact ⟨u, hu, by simp [hs, hne]⟩

/-! ### Concrete scenarios used as witnesses -/

/-- A request whose token resolves to no identity. -/
def anonEnv : Env :=
  { method := "POST", userId := none, profile := none,
    bodyResult := Except.error (), serviceRoleKey := none,
    orgData := none, orgError := none, linkedUsers := none, usersError := none,
    deleteUserResult := fun _ => none, deleteOrgError := none }

/-- The end-to-end success scenario: super admin, organization `org-1`,
two linked profiles `u1`, `u2`, every deletion succeeds. -/
def happyEnv : Env :=
  { method := "POST", userId := some "caller-1", profile := some (some "super_admin"),
    bodyResult := Except.ok (some "org-1"), serviceRoleKey := some "service-key",
    orgData := some ⟨"org-1", "Org One"⟩, orgError := none,
    linkedUsers := some [⟨some "u1"⟩, ⟨some "u2"⟩], usersError := none,
    deleteUserResult := fun _ => none, deleteOrgError := none }

/-! ### Claim theorems -/

/-- Claim C1: for every request whose caller resolves to no identity or
whose role is absent or not `super_admin`, the handler fails with an
Unauthorized-kind error and issues no privileged operation: the admin
client is never constructed and no account or organization deletion is
issued. -/
theorem unauthorized_caller_no_privileged_ops (e : Env)
    (hm : e.method ≠ "OPTIONS")
    (h : e.userId = none ∨ roleIsSuperAdmin e.profile = false) :
    ∃ err : Err, specKind err = ErrKind.Unauthorized ∧
      (handle e).1 = ⟨400, Body.jsonError err.message errorDetails⟩ ∧
      Op.constructAdminClient ∉ (handle e).2 ∧
      (∀ u, Op.deleteAuthUser u ∉ (handle e).2) ∧
      (∀ o, Op.deleteOrganization o ∉ (handle e).2) := by
  match hu : e.userId with
  | none =>
    have hr : runSteps e = (Except.error Err.unauthorizedNoUser, [Op.getUser]) := by
      simp [runSteps, hu]
    have hh := handle_error_eq e _ _ hm hr
    exact ⟨Err.unauthorizedNoUser, rfl, by rw [hh], by simp [hh], by simp [hh],
      by simp [hh]⟩
  | some uid =>
    have hrole : roleIsSuperAdmin e.profile = false := by
      rcases h with h | h
      · rw [hu] at h
        exact absurd h (by simp)
      · exact h
    have hr : runSteps e =
        (Except.error Err.unauthorizedNotSuperAdmin, [Op.getUser, Op.queryUserRole]) := by
      simp [runSteps, hu, hrole]
    have hh := handle_error_eq e _ _ hm hr
    exact ⟨Err.unauthorizedNotSuperAdmin, rfl, by rw [hh], by simp [hh], by simp [hh],
      by simp [hh]⟩

/-- Witness for C1 at a concrete unauthenticated request. -/
theorem unauthorized_caller_no_privileged_ops_witness :
    ∃ err : Err, specKind err = ErrKind.Unauthorized ∧
      (handle anonEnv).1 = ⟨400, Body.jsonError err.message errorDetails⟩ ∧
      Op.constructAdminClient ∉ (handle anonEnv).2 ∧
      (∀ u, Op.deleteAuthUser u ∉ (handle anonEnv).2) ∧
      (∀ o, Op.deleteOrganization o ∉ (handle anonEnv).2) :=
  unauthorized_caller_no_privileged_ops anonEnv (by decide) (Or.inl rfl)

/-- Claim C4: super admin caller, organization `org-1` with linked
profiles `u1` and `u2`, all deletions succeed: the handler returns
HTTP 200 with the success message, after issuing both account deletions
and the organization deletion. -/
theorem happy_path_two_accounts :
    (handle happyEnv).1 =
      ⟨200, Body.jsonMessage "Organization and associated accounts deleted successfully"⟩
    ∧ (handle happyEnv).2 = [Op.getUser, Op.queryUserRole, Op.readBody,
        Op.constructAdminClient, Op.queryOrganization, Op.queryLinkedUsers,
        Op.deleteAuthUser "u1", Op.deleteAuthUser "u2", Op.deleteOrganization "org-1"] := by
  constructor <;> decide

/-- Claim C5: every failing invocation, whatever the error kind, is
answered with HTTP 400 and a body carrying the `error` string and the
`details` string — the status code never distinguishes kinds. -/
theorem failure_envelope_uniform_status (e : Env) (err : Err) (ops : List Op)
    (hm : e.method ≠ "OPTIONS") (h : runSteps e = (Except.error err, ops)) :
    (handle e).1 = ⟨400, Body.jsonError err.message errorDetails⟩ := by
  rw [handle_error_eq e err ops hm h]

/-- Witness for C5 at a concrete failing request. -/
theorem failure_envelope_uniform_status_witness :
    (handle anonEnv).1 = ⟨400, Body.jsonError Err.unauthorizedNoUser.message errorDetails⟩ :=
  failure_envelope_uniform_status anonEnv Err.unauthorizedNoUser [Op.getUser]
    (by decide) (by rfl)

/-- Claim C9: authentication and authorization are evaluated before the
request body is ever read: an unauthenticated or under-privileged caller
always gets an Unauthorized-kind error — never InvalidRequest — and the
body-read operation is never issued, whatever the body contains. -/
theorem auth_checked_before_body_read (e : Env)
    (hm : e.method ≠ "OPTIONS")
    (h : e.userId = none ∨ roleIsSuperAdmin e.profile = false) :
    ∃ err : Err, specKind err = ErrKind.Unauthorized ∧
      (runSteps e).1 = Except.error err ∧
      Op.readBody ∉ (handle e).2 := by
  match hu : e.userId with
  | none =>
    have hr : runSteps e = (Except.error Err.unauthorizedNoUser, [Op.getUser]) := by
      simp [runSteps, hu]
    exact ⟨Err.unauthorizedNoUser, rfl, by rw [hr],
      by simp [handle_error_eq e _ _ hm hr]⟩
  | some uid =>
    have hrole : roleIsSuperAdmin e.profile = false := by
      rcases h with h | h
      · rw [hu] at h
        exact absurd h (by simp)
      · exact h
    have hr : runSteps e =
        (Except.error Err.unauthorizedNotSuperAdmin, [Op.getUser, Op.queryUserRole]) := by
      simp [runSteps, hu, hrole]
    exact ⟨Err.unauthorizedNotSuperAdmin, rfl, by rw [hr],
      by simp [handle_error_eq e _ _ hm hr]⟩

/-- Witness for C9: an unauthenticated caller with an unparseable body
still gets Unauthorized and the body is never read. -/
theorem auth_checked_before_body_read_witness :
    ∃ err : Err, specKind err = ErrKind.Unauthorized ∧
      (runSteps anonEnv).1 = Except.error err ∧
      Op.readBody ∉ (handle anonEnv).2 :=
  auth_checked_before_body_read anonEnv (by decide) (Or.inl rfl)

/-- Claim C10: every failure body carries the constant details string, and
the response as a whole never depends on the per-account deletion
outcomes, so no per-account error can surface in it. -/
theorem details_constant_no_per_account_errors (e : Env)
    (f : String → Option String) (err : Err) (ops : List Op)
    (hm : e.method ≠ "OPTIONS") (h : runSteps e = (Except.error err, ops)) :
    (handle e).1.body =
      Body.jsonError err.message "Check Supabase Function Logs for more info"
    ∧ handle { e with deleteUserResult := f } = handle e := by
  constructor
  · simp [handle_error_eq e err ops hm h, errorDetails]
  · cases e
    rfl

/-- Witness for C10 at a concrete failing request with a failing
per-account deletion oracle. -/
theorem details_constant_no_per_account_errors_witness :
    (handle anonEnv).1.body =
      Body.jsonError Err.unauthorizedNoUser.message
        "Check Supabase Function Logs for more info"
    ∧ handle { anonEnv with deleteUserResult := fun _ => some "boom" } = handle anonEnv :=
  details_constant_no_per_account_errors anonEnv (fun _ => some "boom")
    Err.unauthorizedNoUser [Op.getUser] (by decide) (by rfl)

/-- On a successful linked-user query the purge trace is exactly the
per-profile deletion list. -/
theorem purgeOpsOf_some (us : List ProfileRow) :
    purgeOpsOf (some us) = deleteOpsFor us := by
  simp only [purgeOpsOf, purge_guard_eq]

/-- A scenario in which deleting the second of three accounts fails. -/
def purgeEnv : Env :=
  { method := "POST", userId := some "caller-1", profile := some (some "super_admin"),
    bodyResult := Except.ok (some "org-9"), serviceRoleKey := some "service-key",
    orgData := some ⟨"org-9", "Org Nine"⟩, orgError := none,
    linkedUsers := some [⟨some "u1"⟩, ⟨some "u2"⟩, ⟨some "u3"⟩], usersError := none,
    deleteUserResult := fun u => if u = "u2" then some "deletion failed" else none,
    deleteOrgError := none }

/-- Claim C2: with N enumerated linked profiles (each carrying an account
id), all N account deletions are issued whatever each deletion returns,
the organization delete is still attempted afterwards, and if it succeeds
the call returns success; per-account errors never reach the response. -/
theorem best_effort_purge (e : Env) (uid oid k : String) (org : OrgRow)
    (us : List ProfileRow)
    (hm : e.method ≠ "OPTIONS")
    (hu : e.userId = some uid) (hp : e.profile = some (some "super_admin"))
    (hb : e.bodyResult = Except.ok (some oid)) (hoid : oid ≠ "")
    (hk : e.serviceRoleKey = some k) (hkne : k ≠ "")
    (ho : e.orgData = some org) (hoe : e.orgError = none)
    (hus : e.linkedUsers = some us)
    (hall : ∀ u ∈ us, ∃ s, u.uid = some s ∧ s ≠ "") :
    (handle e).2 = [Op.getUser, Op.queryUserRole, Op.readBody, Op.constructAdminClient,
        Op.queryOrganization, Op.queryLinkedUsers]
      ++ deleteOpsFor us ++ [Op.deleteOrganization oid]
    ∧ (deleteOpsFor us).length = us.length
    ∧ (∀ u ∈ us, ∀ s, u.uid = some s → Op.deleteAuthUser s ∈ (handle e).2)
    ∧ (e.deleteOrgError = none →
        (handle e).1 = ⟨200, Body.jsonMessage successMessage⟩) := by
  have hr := runSteps_ok e uid oid k org hu hp hb hoid hk hkne ho hoe
  rw [hus, purgeOpsOf_some] at hr
  have htrace : (handle e).2 =
      [Op.getUser, Op.queryUserRole, Op.readBody, Op.constructAdminClient,
        Op.queryOrganization, Op.queryLinkedUsers]
      ++ deleteOpsFor us ++ [Op.deleteOrganization oid] := by
    cases hd : e.deleteOrgError with
    | none =>
      rw [hd] at hr
      exact congrArg Prod.snd (handle_ok_eq e _ hm hr)
    | some m =>
      rw [hd] at hr
      exact congrArg Prod.snd (handle_error_eq e _ _ hm hr)
  refine ⟨htrace, deleteOpsFor_length us hall, ?_, ?_⟩
  · intro u hu2 s hs
    obtain ⟨s2, hs2, hne2⟩ := hall u hu2
    rw [hs] at hs2
    obtain rfl : s = s2 := by injection hs2
    rw [htrace]
    exact List.mem_append.mpr (Or.inl (List.mem_append.mpr
      (Or.inr (deleteOpsFor_mem us u hu2 s hs hne2))))
  · intro hd
    rw [hd] at hr
    exact congrArg Prod.fst (handle_ok_eq e _ hm hr)

/-- Witness for C2: three linked profiles, the second account deletion
fails, yet all three deletions are issued and the call succeeds. -/
theorem best_effort_purge_witness :
    (handle purgeEnv).2 = [Op.getUser, Op.queryUserRole, Op.readBody,
        Op.constructAdminClient, Op.queryOrganization, Op.queryLinkedUsers]
      ++ deleteOpsFor [⟨some "u1"⟩, ⟨some "u2"⟩, ⟨some "u3"⟩]
      ++ [Op.deleteOrganization "org-9"]
    ∧ (deleteOpsFor [⟨some "u1"⟩, ⟨some "u2"⟩, ⟨some "u3"⟩]).length =
        ([⟨some "u1"⟩, ⟨some "u2"⟩, ⟨some "u3"⟩] : List ProfileRow).length
    ∧ (∀ u ∈ ([⟨some "u1"⟩, ⟨some "u2"⟩, ⟨some "u3"⟩] : List ProfileRow),
        ∀ s, u.uid = some s → Op.deleteAuthUser s ∈ (handle purgeEnv).2)
    ∧ (purgeEnv.deleteOrgError = none →
        (handle purgeEnv).1 = ⟨200, Body.jsonMessage successMessage⟩) :=
  best_effort_purge purgeEnv "caller-1" "org-9" "service-key" ⟨"org-9", "Org Nine"⟩
    [⟨some "u1"⟩, ⟨some "u2"⟩, ⟨some "u3"⟩]
    (by decide) rfl rfl rfl (by decide) rfl (by decide) rfl rfl rfl
    (by
      intro u hu
      simp only [List.mem_cons, List.not_mem_nil, or_false] at hu
      rcases hu with rfl | rfl | rfl
      · exact ⟨"u1", rfl, by decide⟩
      · exact ⟨"u2", rfl, by decide⟩
      · exact ⟨"u3", rfl, by decide⟩)

/-- Claim C3: if the final organization delete errors, the overall result
is the DeletionFailed-kind failure envelope with HTTP 400, whatever the
earlier per-account outcomes were. -/
theorem org_delete_failure_is_fatal (e : Env) (uid oid k em : String) (org : OrgRow)
    (hm : e.method ≠ "OPTIONS")
    (hu : e.userId = some uid) (hp : e.profile = some (some "super_admin"))
    (hb : e.bodyResult = Except.ok (some oid)) (hoid : oid ≠ "")
    (hk : e.serviceRoleKey = some k) (hkne : k ≠ "")
    (ho : e.orgData = some org) (hoe : e.orgError = none)
    (hfail : e.deleteOrgError = some em) :
    (runSteps e).1 = Except.error (Err.deleteOrgFailed em)
    ∧ specKind (Err.deleteOrgFailed em) = ErrKind.DeletionFailed
    ∧ (handle e).1 = ⟨400, Body.jsonError em errorDetails⟩ := by
  have hr := runSteps_ok e uid oid k org hu hp hb hoid hk hkne ho hoe
  rw [hfail] at hr
  refine ⟨by rw [hr], rfl, ?_⟩
  have hh := handle_error_eq e _ _ hm hr
  simp [hh, Err.message]

/-- Witness for C3: the success scenario except the organization delete
errors; the call returns the 400 envelope. -/
theorem org_delete_failure_is_fatal_witness :
    (runSteps { happyEnv with deleteOrgError := some "fk violation" }).1 =
      Except.error (Err.deleteOrgFailed "fk violation")
    ∧ specKind (Err.deleteOrgFailed "fk violation") = ErrKind.DeletionFailed
    ∧ (handle { happyEnv with deleteOrgError := some "fk violation" }).1 =
        ⟨400, Body.jsonError "fk violation" errorDetails⟩ :=
  org_delete_failure_is_fatal { happyEnv with deleteOrgError := some "fk violation" }
    "caller-1" "org-1" "service-key" "fk violation" ⟨"org-1", "Org One"⟩
    (by decide) rfl rfl rfl (by decide) rfl (by decide) rfl rfl rfl

/-- Claim C7: for an authorized caller with a valid organizationId, if the
organization lookup errors or finds no row, the run fails with a
NotFound-kind error. -/
theorem org_lookup_failure_not_found (e : Env) (uid oid k : String)
    (hm : e.method ≠ "OPTIONS")
    (hu : e.userId = some uid) (hp : e.profile = some (some "super_admin"))
    (hb : e.bodyResult = Except.ok (some oid)) (hoid : oid ≠ "")
    (hk : e.serviceRoleKey = some k) (hkne : k ≠ "")
    (h : e.orgError ≠ none ∨ e.orgData = none) :
    ∃ err : Err, (runSteps e).1 = Except.error err
      ∧ specKind err = ErrKind.NotFound
      ∧ (handle e).1 = ⟨400, Body.jsonError err.message errorDetails⟩ := by
  match hoe : e.orgError with
  | some m =>
    have hr : runSteps e = (Except.error (Err.databaseErrorFetchingOrg m),
        [Op.getUser, Op.queryUserRole, Op.readBody, Op.constructAdminClient,
         Op.queryOrganization]) := by
      simp [runSteps, hu, hp, hb, hk, hoe, roleIsSuperAdmin, falsy, hoid, hkne]
    exact ⟨Err.databaseErrorFetchingOrg m, by rw [hr], rfl,
      by rw [handle_error_eq e _ _ hm hr]⟩
  | none =>
    have ho : e.orgData = none := by
      rcases h with h | h
      · exact absurd hoe h
      · exact h
    have hr : runSteps e = (Except.error Err.organizationNotFound,
        [Op.getUser, Op.queryUserRole, Op.readBody, Op.constructAdminClient,
         Op.queryOrganization]) := by
      simp [runSteps, hu, hp, hb, hk, hoe, ho, roleIsSuperAdmin, falsy, hoid, hkne]
    exact ⟨Err.organizationNotFound, by rw [hr], rfl,
      by rw [handle_error_eq e _ _ hm hr]⟩

/-- Witness for C7: an authorized request for an organization id that
matches no row. -/
theorem org_lookup_failure_not_found_witness :
    ∃ err : Err,
      (runSteps { happyEnv with orgData := none, orgError := some "0 rows" }).1 =
        Except.error err
      ∧ specKind err = ErrKind.NotFound
      ∧ (handle { happyEnv with orgData := none, orgError := some "0 rows" }).1 =
          ⟨400, Body.jsonError err.message errorDetails⟩ :=
  org_lookup_failure_not_found
    { happyEnv with orgData := none, orgError := some "0 rows" }
    "caller-1" "org-1" "service-key"
    (by decide) rfl rfl rfl (by decide) rfl (by decide) (Or.inl (by decide))

/-- A super-admin request whose parsed body carries no organizationId. -/
def missingIdEnv : Env :=
  { method := "POST", userId := some "caller-1", profile := some (some "super_admin"),
    bodyResult := Except.ok none, serviceRoleKey := some "service-key",
    orgData := none, orgError := none, linkedUsers := none, usersError := none,
    deleteUserResult := fun _ => none, deleteOrgError := none }

/-- Claim C6 (counterexample): an authenticated super-admin request with a
missing organizationId does fail with the InvalidRequest-kind error, but a
relational-store query has already been issued by then: the role lookup on
`user_profiles` precedes body validation, so "no relational-store query is
issued on such a request" is false. -/
theorem missing_org_id_still_queries_role :
    (handle missingIdEnv).1 =
      ⟨400, Body.jsonError "Organization ID is required" errorDetails⟩
    ∧ Op.queryUserRole ∈ (handle missingIdEnv).2 := by
  constructor <;> decide

/-- Claim C6 (amended): for an authenticated super-admin request with a
missing or empty organizationId, the run fails with the InvalidRequest-kind
error before any privileged data-store access: the trace is exactly the
authentication, role-authorization and body-read steps, so the privileged
client is never constructed and no organization lookup, linked-user
enumeration or deletion is issued. -/
theorem missing_org_id_no_privileged_access (e : Env) (uid : String)
    (oid? : Option String)
    (hm : e.method ≠ "OPTIONS")
    (hu : e.userId = some uid) (hp : e.profile = some (some "super_admin"))
    (hb : e.bodyResult = Except.ok oid?) (hmiss : falsy oid? = true) :
    (runSteps e).1 = Except.error Err.organizationIdRequired
    ∧ specKind Err.organizationIdRequired = ErrKind.InvalidRequest
    ∧ (handle e).2 = [Op.getUser, Op.queryUserRole, Op.readBody]
    ∧ Op.constructAdminClient ∉ (handle e).2
    ∧ Op.queryOrganization ∉ (handle e).2
    ∧ Op.queryLinkedUsers ∉ (handle e).2
    ∧ (∀ u, Op.deleteAuthUser u ∉ (handle e).2)
    ∧ (∀ o, Op.deleteOrganization o ∉ (handle e).2) := by
  have hr : runSteps e = (Except.error Err.organizationIdRequired,
      [Op.getUser, Op.queryUserRole, Op.readBody]) := by
    match ho : oid? with
    | none =>
      simp [runSteps, hu, hp, hb, roleIsSuperAdmin]
    | some s =>
      have hs : s = "" := by simpa [falsy] using hmiss
      rw [hs] at hb
      simp [runSteps, hu, hp, hb, roleIsSuperAdmin]
  have hh := handle_error_eq e _ _ hm hr
  refine ⟨by rw [hr], rfl, by rw [hh], ?_, ?_, ?_, ?_, ?_⟩ <;> simp [hh]

/-- Witness for the amended C6 at a concrete request with no
organizationId. -/
theorem missing_org_id_no_privileged_access_witness :
    (runSteps missingIdEnv).1 = Except.error Err.organizationIdRequired
    ∧ specKind Err.organizationIdRequired = ErrKind.InvalidRequest
    ∧ (handle missingIdEnv).2 = [Op.getUser, Op.queryUserRole, Op.readBody]
    ∧ Op.constructAdminClient ∉ (handle missingIdEnv).2
    ∧ Op.queryOrganization ∉ (handle missingIdEnv).2
    ∧ Op.queryLinkedUsers ∉ (handle missingIdEnv).2
    ∧ (∀ u, Op.deleteAuthUser u ∉ (handle missingIdEnv).2)
    ∧ (∀ o, Op.deleteOrganization o ∉ (handle missingIdEnv).2) :=
  missing_org_id_no_privileged_access missingIdEnv "caller-1" none
    (by decide) rfl rfl rfl (by decide)

/-- The purge loop issues only account deletions, never an organization
deletion. -/
theorem deleteOpsFor_only_auth (us : List ProfileRow) (o : String) :
    Op.deleteOrganization o ∉ deleteOpsFor us := by
  simp only [deleteOpsFor, List.mem_filterMap]
  rintro ⟨u, hu, hf⟩
  cases h : u.uid with
  | none => rw [h] at hf; simp at hf
  | some s =>
    rw [h] at hf
    by_cases hs : s = "" <;> simp [hs] at hf

/-- Whatever the linked-user query returned, the purge trace holds no
organization deletion. -/
theorem purgeOpsOf_no_delete_org (lus : Option (List ProfileRow)) (o : String) :
    Op.deleteOrganization o ∉ purgeOpsOf lus := by
  cases lus with
  | none => simp [purgeOpsOf]
  | some us =>
    rw [purgeOpsOf_some]
    exact deleteOpsFor_only_auth us o

/-- A trace without organization deletions leaves the organizations table
unchanged. -/
theorem applyOps_orgs_no_delete (ops : List Op) :
    ∀ s : Store, (∀ o, Op.deleteOrganization o ∉ ops) →
      (applyOps s ops).orgs = s.orgs := by
  induction ops with
  | nil => intro s _; rfl
  | cons x xs ih =>
    intro s h
    have hx : ∀ o, Op.deleteOrganization o ∉ xs := fun o ho =>
      h o (List.mem_cons_of_mem x ho)
    have hhead : (applyOp s x).orgs = s.orgs := by
      cases x with
      | deleteAuthUser u => rfl
      | deleteOrganization o2 => exact absurd (List.mem_cons_self _ _) (h o2)
      | getUser => rfl
      | queryUserRole => rfl
      | readBody => rfl
      | constructAdminClient => rfl
      | queryOrganization => rfl
      | queryLinkedUsers => rfl
    calc (applyOps s (x :: xs)).orgs = (applyOps (applyOp s x) xs).orgs := rfl
      _ = (applyOp s x).orgs := ih (applyOp s x) hx
      _ = s.orgs := hhead

/-- A trace ending in an organization deletion removes every matching
organization row. -/
theorem applyOps_deleteOrg_last (s : Store) (pre : List Op) (oid : String) :
    (applyOps s (pre ++ [Op.deleteOrganization oid])).orgs =
      (applyOps s pre).orgs.filter fun o => o.id ≠ oid := by
  rw [applyOps, List.foldl_append]
  rfl

/-- Selecting an organization id among the rows that survived its deletion
finds nothing. -/
theorem filter_erase_org (l : List OrgRow) (oid : String) :
    ((l.filter fun o => o.id ≠ oid).filter fun o => o.id = oid) = [] := by
  induction l with
  | nil => rfl
  | cons x xs ih =>
    by_cases h : x.id = oid <;> simp [List.filter_cons, h, ih]

/-- Claim C8: for an organization id matching exactly one stored row, an
authorized deprovision succeeds, and immediately repeating it on the
resulting store fails with a NotFound-kind error. -/
theorem deprovision_twice_success_then_not_found (s : Store) (c : Caller)
    (uid oid k : String) (org : OrgRow)
    (hm : c.method ≠ "OPTIONS") (hu : c.userId = some uid)
    (hrole : c.role = some (some "super_admin"))
    (hb : c.bodyResult = Except.ok (some oid)) (hoid : oid ≠ "")
    (hk : c.serviceRoleKey = some k) (hkne : k ≠ "")
    (hone : s.orgs.filter (fun o => o.id = oid) = [org]) :
    (runOnStore c s).1 = ⟨200, Body.jsonMessage successMessage⟩
    ∧ ∃ err : Err, specKind err = ErrKind.NotFound ∧
        (runOnStore c (runOnStore c s).2).1 =
          ⟨400, Body.jsonError err.message errorDetails⟩ := by
  have he1u : (storeEnv c s).userId = some uid := by simp [storeEnv, hu]
  have he1p : (storeEnv c s).profile = some (some "super_admin") := by
    simp [storeEnv, hrole]
  have he1b : (storeEnv c s).bodyResult = Except.ok (some oid) := by
    simp [storeEnv, hb]
  have he1k : (storeEnv c s).serviceRoleKey = some k := by simp [storeEnv, hk]
  have he1o : (storeEnv c s).orgData = some org := by
    simp [storeEnv, hb, hone, singleOf]
  have he1e : (storeEnv c s).orgError = none := by
    simp [storeEnv, hb, hone, singleOf]
  have he1m : (storeEnv c s).method ≠ "OPTIONS" := by simpa [storeEnv] using hm
  have hr1 := runSteps_ok (storeEnv c s) uid oid k org he1u he1p he1b hoid he1k
    hkne he1o he1e
  have he1d : (storeEnv c s).deleteOrgError = none := by simp [storeEnv]
  rw [he1d] at hr1
  have hh1 := handle_ok_eq (storeEnv c s) _ he1m hr1
  have hstore2 : (runOnStore c s).2 =
      applyOps s ([Op.getUser, Op.queryUserRole, Op.readBody, Op.constructAdminClient,
        Op.queryOrganization, Op.queryLinkedUsers]
        ++ purgeOpsOf (storeEnv c s).linkedUsers ++ [Op.deleteOrganization oid]) := by
    simp [runOnStore, hh1]
  have hfirst : (runOnStore c s).1 = ⟨200, Body.jsonMessage successMessage⟩ := by
    simp [runOnStore, hh1]
  have hpre : ∀ o, Op.deleteOrganization o ∉
      ([Op.getUser, Op.queryUserRole, Op.readBody, Op.constructAdminClient,
        Op.queryOrganization, Op.queryLinkedUsers]
        ++ purgeOpsOf (storeEnv c s).linkedUsers) := by
    intro o hmem
    rcases List.mem_append.mp hmem with hmem | hmem
    · simp at hmem
    · exact purgeOpsOf_no_delete_org _ o hmem
  have horgs2 : ((runOnStore c s).2).orgs.filter (fun o => o.id = oid) = [] := by
    rw [hstore2, applyOps_deleteOrg_last, applyOps_orgs_no_delete _ _ hpre]
    exact filter_erase_org s.orgs oid
  have he2u : (storeEnv c (runOnStore c s).2).userId = some uid := by
    simp [storeEnv, hu]
  have he2p : (storeEnv c (runOnStore c s).2).profile = some (some "super_admin") := by
    simp [storeEnv, hrole]
  have he2b : (storeEnv c (runOnStore c s).2).bodyResult = Except.ok (some oid) := by
    simp [storeEnv, hb]
  have he2k : (storeEnv c (runOnStore c s).2).serviceRoleKey = some k := by
    simp [storeEnv, hk]
  have he2e : (storeEnv c (runOnStore c s).2).orgError =
      some "JSON object requested, multiple (or no) rows returned" := by
    simp [storeEnv, hb, singleOf, horgs2]
  have he2m : (storeEnv c (runOnStore c s).2).method ≠ "OPTIONS" := by
    simpa [storeEnv] using hm
  have hr2 : runSteps (storeEnv c (runOnStore c s).2) =
      (Except.error (Err.databaseErrorFetchingOrg
          "JSON object requested, multiple (or no) rows returned"),
        [Op.getUser, Op.queryUserRole, Op.readBody, Op.constructAdminClient,
         Op.queryOrganization]) := by
    simp [runSteps, he2u, he2p, he2b, he2k, he2e, roleIsSuperAdmin, falsy, hoid, hkne]
  have hh2 := handle_error_eq _ _ _ he2m hr2
  refine ⟨hfirst, Err.databaseErrorFetchingOrg
      "JSON object requested, multiple (or no) rows returned", rfl, ?_⟩
  show (handle (storeEnv c (runOnStore c s).2)).1 = _
  rw [hh2]

/-- A one-organization store and its authorized deprovision request. -/
def demoStore : Store :=
  { orgs := [⟨"org-1", "Acme"⟩], profiles := [⟨some "u1", some "org-1"⟩],
    authUsers := ["u1"] }

/-- The caller used by the C8 witness. -/
def demoCaller : Caller :=
  { method := "POST", userId := some "caller-1", role := some (some "super_admin"),
    bodyResult := Except.ok (some "org-1"), serviceRoleKey := some "service-key" }

/-- Witness for C8 at a concrete one-organization store. -/
theorem deprovision_twice_success_then_not_found_witness :
    (runOnStore demoCaller demoStore).1 = ⟨200, Body.jsonMessage successMessage⟩
    ∧ ∃ err : Err, specKind err = ErrKind.NotFound ∧
        (runOnStore demoCaller (runOnStore demoCaller demoStore).2).1 =
          ⟨400, Body.jsonError err.message errorDetails⟩ :=
  deprovision_twice_success_then_not_found demoStore demoCaller "caller-1" "org-1"
    "service-key" ⟨"org-1", "Acme"⟩ (by decide) rfl rfl rfl (by decide) rfl
    (by decide) (by decide)

end Deprovision
